import Mathlib

/-
  Shallow embedding of src/addon/moch/moch.js: the provider ("moch") registry,
  credential guard, stream aggregation (applyMochs / processMochResults /
  populateCachedLinks / populateDownloadLinks), error classification
  (errorStreamResponse) and the resolve method pipeline.

  JavaScript objects are modelled as Lean structures with Option fields for
  properties that may be absent (undefined); JS objects-as-maps are association
  lists in insertion order; JS truthiness of strings ("" is falsy) is modelled
  explicitly; a thrown TypeError is modelled as Except.error.
-/

deriving instance DecidableEq for Except

namespace Torrentio

/-- A stream candidate as produced upstream: infoHash/url/behaviorHints may be
absent (undefined in JS). -/
structure Stream where
  infoHash : Option String
  name : String
  title : String
  url : Option String
  behaviorHints : Option String
deriving Repr, DecidableEq, Inhabited

/-- One entry of a provider cached-lookup result: `{ cached, url }` where url
may be absent. -/
structure CachedEntry where
  cached : Bool
  url : Option String
deriving Repr, DecidableEq, Inhabited

/-- A provider cached-lookup result: JS object mapping infoHash to entry,
modelled as an association list in insertion order. -/
abbrev MochStreams := List (String × CachedEntry)

/-- A provider descriptor of the `MochOptions` registry (the `instance` field
holding the HTTP client is modelled separately as an oracle argument). -/
structure Moch where
  key : String
  name : String
  shortName : String
  catalog : Bool
deriving Repr, DecidableEq, Inhabited

def realdebridMoch : Moch := ⟨"realdebrid", "RealDebrid", "RD", true⟩
def premiumizeMoch : Moch := ⟨"premiumize", "Premiumize", "PM", true⟩
def alldebridMoch : Moch := ⟨"alldebrid", "AllDebrid", "AD", true⟩
def debridlinkMoch : Moch := ⟨"debridlink", "DebridLink", "DL", true⟩
def offcloudMoch : Moch := ⟨"offcloud", "Offcloud", "OC", true⟩
def putioMoch : Moch := ⟨"putio", "Put.io", "Putio", false⟩

/-- The `MochOptions` registry in declaration order. -/
def MochOptions : List Moch :=
  [realdebridMoch, premiumizeMoch, alldebridMoch, debridlinkMoch, offcloudMoch, putioMoch]

/-- Lookup `MochOptions[key]`: lookup of a provider descriptor by key. -/
def findMoch (key : String) : Option Moch :=
  MochOptions.find? (fun m => m.key == key)

/-- The user configuration: the provider-credential entries of the JS config
object (in insertion order), plus `host` and the two option flags read through
`options.js` (`includeTorrentLinks` / `excludeDownloadLinks`). -/
structure Config where
  host : String
  entries : List (String × String)
  includeTorrentLinks : Bool
  excludeDownloadLinks : Bool
deriving Repr, DecidableEq, Inhabited

/-- Errors a provider `getCachedStreams` call can fail with:
`BadTokenError` (InvalidCredentialError), `AccessDeniedError`, or any other
transport/parse error. -/
inductive MochError where
  | badToken
  | accessDenied
  | other
deriving Repr, DecidableEq, Inhabited

/-- Outcome collected per provider in `applyMochs`: either
`{ moch, mochStreams }` or `{ moch, error }`. -/
inductive MochOutcome where
  | success (mochStreams : MochStreams)
  | failure (e : MochError)
deriving Repr, DecidableEq, Inhabited

structure MochResult where
  moch : Moch
  outcome : MochOutcome
deriving Repr, DecidableEq, Inhabited

/-- A successful result `{ moch, mochStreams }` as consumed by the merge fold. -/
structure MochSuccess where
  moch : Moch
  mochStreams : MochStreams
deriving Repr, DecidableEq, Inhabited

/-- Whether the second list is a prefix of the first arguments reversed:
`charsPrefix pat cs` is true when `pat` is a prefix of `cs`. -/
def charsPrefix : List Char → List Char → Bool
  | [], _ => true
  | _ :: _, [] => false
  | p :: ps, c :: cs => p == c && charsPrefix ps cs

/-- Substring containment on character lists. -/
def charsIncludes : List Char → List Char → Bool
  | [], pat => pat.isEmpty
  | c :: cs, pat => charsPrefix pat (c :: cs) || charsIncludes cs pat

/-- JS `String.prototype.includes`: substring containment. -/
def jsIncludes (s pat : String) : Bool :=
  charsIncludes s.data pat.data

/-- JS truthiness of a possibly-absent string: undefined and "" are falsy. -/
def jsTruthy (o : Option String) : Bool :=
  match o with
  | some s => s != ""
  | none => false

/-- JS template-literal interpolation of a possibly-undefined string:
undefined prints as "undefined". -/
def jsStr (o : Option String) : String :=
  o.getD "undefined"

/-- `stream.infoHash && mochResult.mochStreams[stream.infoHash]`: the lookup
short-circuits to a falsy value when infoHash is absent or empty. -/
def hashLookup (s : Stream) (map : MochStreams) : Option CachedEntry :=
  match s.infoHash with
  | some h => if h == "" then none else map.lookup h
  | none => none

def MIN_API_KEY_SYMBOLS : Nat := 15

def RESOLVE_TIMEOUT : Nat := 2 * 60 * 1000

/-- Guard `isInvalidToken` (moch.js line 202): short credential or blacklisted
`mochKey|token` pair. The process-wide TOKEN_BLACKLIST is passed explicitly. -/
def isInvalidToken (blacklist : List String) (token : String) (mochKey : String) : Bool :=
  token.length < MIN_API_KEY_SYMBOLS || blacklist.contains (mochKey ++ "|" ++ token)

/-- Function `hasMochConfigured` (moch.js line 67): first registry key with a truthy
credential in the config, if any. -/
def hasMochConfigured (config : Config) : Option String :=
  (MochOptions.map (fun m => m.key)).find? (fun k => jsTruthy (config.entries.lookup k))

/-- Sentinel static response keys of static.js. Modelled from the spec:
static.js is not under src/; the spec describes a small set of magic sentinel
URL strings including a FAILED_ACCESS and a FAILED_UNEXPECTED placeholder. -/
def FAILED_ACCESS : String := "videos/failed_access.mp4"

/-- Modelled from the spec: the FAILED_UNEXPECTED sentinel of static.js. -/
def FAILED_UNEXPECTED : String := "videos/failed_unexpected.mp4"

/-- Modelled from the spec: `isStaticUrl` of static.js — membership in the
small set of static sentinel values. -/
def isStaticUrl (url : String) : Bool :=
  [FAILED_ACCESS, FAILED_UNEXPECTED].contains url

/-- The branded replacement entry built by `populateCachedLinks` for a cached
candidate: note the JS object literal has no infoHash property. -/
def cachedReplacement (fname : Stream → String) (config : Config) (mr : MochSuccess)
    (stream : Stream) (ce : CachedEntry) : Stream :=
  { infoHash := none
    name := "[" ++ mr.moch.shortName ++ "+] " ++ stream.name
    title := stream.title
    url := some (config.host ++ "/" ++ mr.moch.key ++ "/" ++ jsStr ce.url ++ "/" ++ fname stream)
    behaviorHints := stream.behaviorHints }

/-- Function `populateCachedLinks` (moch.js lines 162-175). `fname` is the imported
`streamFilename` helper of mochHelper.js, passed as a parameter. -/
def populateCachedLinks (fname : Stream → String) (streams : List Stream)
    (mr : MochSuccess) (config : Config) : List Stream :=
  streams.map (fun stream =>
    let cachedEntry := hashLookup stream mr.mochStreams
    match cachedEntry with
    | some ce => if ce.cached then cachedReplacement fname config mr stream ce else stream
    | none => stream)

/-- Policy `isHealthyStreamForDebrid` (moch.js lines 195-200). Its first argument is
the list the call site passes (the seeded streams, see populateDownloadLinks). -/
def isHealthyStreamForDebrid (streams : List Stream) (stream : Stream) : Bool :=
  let isZeroSeeders := jsIncludes stream.title "👤 0"
  let is4kStream := jsIncludes stream.name "4k"
  let isNotEnoughOptions := streams.length ≤ 5
  !isZeroSeeders || is4kStream || isNotEnoughOptions

/-- The seeded sublist `streams.filter(stream => !stream.title.includes('👤 0'))`
(moch.js line 179). -/
def seededFilter (streams : List Stream) : List Stream :=
  streams.filter (fun s => !jsIncludes s.title "👤 0")

/-- The download entry pushed by `populateDownloadLinks` for an uncached
healthy candidate. -/
def downloadEntry (fname : Stream → String) (config : Config) (mr : MochSuccess)
    (stream : Stream) (ce : CachedEntry) : Stream :=
  { infoHash := none
    name := "[" ++ mr.moch.shortName ++ " download] " ++ stream.name
    title := stream.title
    url := some (config.host ++ "/" ++ mr.moch.key ++ "/" ++ jsStr ce.url ++ "/" ++ fname stream)
    behaviorHints := stream.behaviorHints }

/-- Function `populateDownloadLinks` (moch.js lines 177-193). The JS reads
`cachedEntry.url` without optional chaining inside the push: when the lookup
returned undefined this throws a TypeError, modelled as `Except.error ()`.
The pushes append to the original list in stream-major, provider-minor order. -/
def populateDownloadLinks (fname : Stream → String) (streams : List Stream)
    (mochResults : List MochSuccess) (config : Config) : Except Unit (List Stream) := do
  let torrentStreams := streams.filter (fun s => jsTruthy s.infoHash)
  let seededStreams := seededFilter streams
  let extras ← torrentStreams.foldlM (fun acc stream =>
    mochResults.foldlM (fun acc2 mr =>
      let cachedEntry := hashLookup stream mr.mochStreams
      let isCached := (cachedEntry.map (fun ce => ce.cached)).getD false
      if !isCached && isHealthyStreamForDebrid seededStreams stream then
        match cachedEntry with
        | some ce => pure (acc2 ++ [downloadEntry fname config mr stream ce])
        | none => throw ()
      else pure acc2) acc) ([] : List Stream)
  pure (streams ++ extras)

/-- Classifier `errorStreamResponse` (moch.js lines 212-228): a placeholder stream for a
classifiable error, absent otherwise. The JS builds the stream object with
only name/title/url properties. -/
def errorStreamResponse (mochKey : String) (error : Option MochError) (config : Config) :
    Option Stream :=
  match error, findMoch mochKey with
  | some .badToken, some m =>
    some { infoHash := none
           name := "Torrentio\n" ++ m.shortName ++ " error"
           title := "Invalid " ++ m.name ++ " ApiKey/Token!"
           url := some (config.host ++ "/" ++ FAILED_ACCESS)
           behaviorHints := none }
  | some .accessDenied, some m =>
    some { infoHash := none
           name := "Torrentio\n" ++ m.shortName ++ " error"
           title := "Expired/invalid " ++ m.name ++ " subscription!"
           url := some (config.host ++ "/" ++ FAILED_ACCESS)
           behaviorHints := none }
  | _, _ => none

/-- The error carried by a collected result, if any. -/
def errorOf (o : MochOutcome) : Option MochError :=
  match o with
  | .success _ => none
  | .failure e => some e

/-- Filter `results.filter(result => result?.mochStreams)` (moch.js line 154). -/
def successesOf (results : List MochResult) : List MochSuccess :=
  results.filterMap (fun r =>
    match r.outcome with
    | .success ms => some ⟨r.moch, ms⟩
    | .failure _ => none)

/-- Function `processMochResults` (moch.js lines 144-160). -/
def processMochResults (fname : Stream → String) (streams : List Stream)
    (config : Config) (results : List MochResult) : Except Unit (List Stream) := do
  let errorResults := results.filterMap
    (fun r => errorStreamResponse r.moch.key (errorOf r.outcome) config)
  if !errorResults.isEmpty then
    pure errorResults
  else
    let mochResults := successesOf results
    let cachedStreams := mochResults.foldl
      (fun resultStreams mochResult => populateCachedLinks fname resultStreams mochResult config)
      streams
    let resultStreams ← if config.excludeDownloadLinks then pure cachedStreams
      else populateDownloadLinks fname cachedStreams mochResults config
    pure (if config.includeTorrentLinks then resultStreams
      else resultStreams.filter (fun s => jsTruthy s.url))

/-- The per-provider step of `applyMochs` (moch.js lines 78-89): the guard
short-circuits an invalid token to BadTokenError without consulting the
provider oracle; otherwise the oracle (the provider getCachedStreams call) is
consulted and a failure is caught into `{ moch, error }`. (The blacklist
append on a caught BadTokenError mutates global state only and does not
change the returned value.) -/
def mochCall (oracle : String → String → Except MochError MochStreams)
    (blacklist : List String) (moch : Moch) (token : String) : MochResult :=
  if isInvalidToken blacklist token moch.key then
    ⟨moch, .failure .badToken⟩
  else
    match oracle moch.key token with
    | .ok ms => ⟨moch, .success ms⟩
    | .error e => ⟨moch, .failure e⟩

/-- Function `applyMochs` (moch.js lines 71-92). `oracle` stands for the pluggable
provider `getCachedStreams` implementations; config entries iterate in
insertion order like `Object.keys(config)`, filtered to registered providers. -/
def applyMochs (oracle : String → String → Except MochError MochStreams)
    (blacklist : List String) (fname : Stream → String)
    (streams : List Stream) (config : Config) : Except Unit (List Stream) :=
  if streams.isEmpty || (hasMochConfigured config).isNone then
    pure streams
  else
    let results := config.entries.filterMap (fun kv =>
      (findMoch kv.fst).map (fun moch => mochCall oracle blacklist moch kv.snd))
    processMochResults fname streams config results

/-- A run of the wrapped resolve computation (moch.js line 104): the provider
call either completed with a url within the timeout, timed out, or failed.
Modelled from the spec: the `timeout` combinator of promises.js and the
idempotent `cacheWrapResolvedUrl` of cache.js are not under src/; the spec
reduces them to this three-way outcome. -/
inductive ResolveOutcome where
  | completed (url : String)
  | timedOut
  | failed
deriving Repr, DecidableEq, Inhabited

/-- The `method` pipeline of `resolve` (moch.js lines 104-109): a timeout or
error is caught into FAILED_UNEXPECTED, then a static sentinel value is
rewritten to an absolute URL by prefixing the caller-supplied host. -/
def resolveMethod (host : String) (outcome : ResolveOutcome) : String :=
  let url := match outcome with
    | .completed u => u
    | .timedOut => FAILED_UNEXPECTED
    | .failed => FAILED_UNEXPECTED
  if isStaticUrl url then host ++ "/" ++ url else url

/-- The settling of the promise returned by `resolve` (moch.js lines 63-65 and
110-112) for a queued method that fulfilled with `result`: the queue invokes
`callback(false, result)` and the handler runs
`result ? resolve(result) : reject(error)`, so a falsy (empty-string) result
rejects with the error value `false`. -/
def unrestrictQueueSettle (result : String) : Except Bool String :=
  if result != "" then .ok result else .error false

/-- The healthy-for-download policy as a predicate over the TOTAL candidate
pool, following the spec sentence word for word ("not flagged as zero-peer
UNLESS it is a 4K-quality candidate or the total candidate pool has 5 or
fewer entries"); to be compared against the source policy. -/
def isHealthySpecPolicy (pool : List Stream) (s : Stream) : Bool :=
  !jsIncludes s.title "👤 0" || jsIncludes s.name "4k" || pool.length ≤ 5

/-- Whether a collected result failed with a classifiable error
(BadTokenError / AccessDeniedError). -/
def classifiable (o : MochOutcome) : Bool :=
  match o with
  | .failure .badToken => true
  | .failure .accessDenied => true
  | _ => false

/- Concrete test fixtures used by witnesses and counterexamples. -/

def testFname : Stream → String := fun _ => "file.mp4"

def emptyConfig : Config :=
  { host := "http://host", entries := [], includeTorrentLinks := false,
    excludeDownloadLinks := false }

def c1Stream : Stream := ⟨some "abc", "Movie", "👤 5 📦 1GB", none, none⟩

def c1Config : Config :=
  { host := "http://host"
    entries := [("realdebrid", "AAAAAAAAAAAAAAAA"), ("premiumize", "BBBBBBBBBBBBBBBB")]
    includeTorrentLinks := false
    excludeDownloadLinks := true }

def c1ConfigRev : Config :=
  { host := "http://host"
    entries := [("premiumize", "BBBBBBBBBBBBBBBB"), ("realdebrid", "AAAAAAAAAAAAAAAA")]
    includeTorrentLinks := false
    excludeDownloadLinks := true }

/-- An oracle on which every provider reports "abc" as cached. -/
def c1Oracle : String → String → Except MochError MochStreams :=
  fun k _ => .ok [("abc", ⟨true, some (k ++ "-url")⟩)]

def c2Results : List MochResult :=
  [⟨realdebridMoch, .failure .badToken⟩,
   ⟨premiumizeMoch, .success [("abc", ⟨true, some "u"⟩)]⟩,
   ⟨alldebridMoch, .failure .other⟩]

def c4Entry : CachedEntry := ⟨true, some "u1"⟩

def c4Map : MochStreams := [("abc", c4Entry)]

def c4Mr : MochSuccess := ⟨realdebridMoch, c4Map⟩

def c4Hit : Stream := ⟨some "abc", "Movie", "T", none, none⟩

def c4Miss : Stream := ⟨some "zzz", "Other", "T2", none, some "bh"⟩

def c4Streams : List Stream := [c4Hit, c4Miss]

def c5Stream : Stream := ⟨some "abc", "Movie", "👤 1 📦 1GB", none, none⟩

def c5Config : Config :=
  { host := "http://host", entries := [("realdebrid", "AAAAAAAAAAAAAAAA")],
    includeTorrentLinks := false, excludeDownloadLinks := false }

def c6s : Stream := ⟨some "h1", "Movie1", "👤 0 📦 1GB", none, none⟩

def c6Pool : List Stream :=
  [c6s,
   ⟨some "h2", "Movie2", "👤 0 📦 1GB", none, none⟩,
   ⟨some "h3", "Movie3", "👤 0 📦 1GB", none, none⟩,
   ⟨some "h4", "Movie4", "👤 0 📦 1GB", none, none⟩,
   ⟨some "h5", "Movie5", "👤 0 📦 1GB", none, none⟩,
   ⟨some "h6", "Movie6", "👤 0 📦 1GB", none, none⟩]

/-- The per-provider results list that applyMochs builds outside its fast
path (moch.js lines 75-90): the config entries in key insertion order,
restricted to registered providers, each put through the per-provider step. -/
def resultsInConfigOrder (oracle : String → String → Except MochError MochStreams)
    (blacklist : List String) (config : Config) : List MochResult :=
  config.entries.filterMap (fun kv =>
    (findMoch kv.fst).map (fun moch => mochCall oracle blacklist moch kv.snd))

/-- Whether a successful provider result reports the stream as cached — the
guard of moch.js lines 164-165. -/
def reportsCached (mr : MochSuccess) (s : Stream) : Bool :=
  ((hashLookup s mr.mochStreams).map (fun ce => ce.cached)).getD false

/-- A provider that knows the hash but reports it NOT cached (non-applicable
to the merge), placed before the winning provider in the fold. -/
def c1Pre : List MochSuccess := [⟨premiumizeMoch, [("abc", ⟨false, some "x"⟩)]⟩]

/-- The first provider of the fold that reports "abc" as cached. -/
def c1Mr : MochSuccess := ⟨realdebridMoch, [("abc", c4Entry)]⟩

/-- A later provider that also reports "abc" as cached yet cannot override. -/
def c1Post : List MochSuccess := [⟨alldebridMoch, [("abc", ⟨true, some "y"⟩)]⟩]

def c1Streams : List Stream := [⟨some "zzz", "Other", "T", none, none⟩, c1Stream]

/- Helper lemmas. -/

/-- The result at a position of populateCachedLinks is determined by the
cached-lookup of the stream at that position. -/
theorem populateCachedLinks_getElem (fname : Stream → String) (config : Config)
    (mr : MochSuccess) (streams : List Stream) (i : Nat) (s : Stream)
    (hs : streams[i]? = some s) :
    (populateCachedLinks fname streams mr config)[i]? =
      some (match hashLookup s mr.mochStreams with
        | some ce => if ce.cached then cachedReplacement fname config mr s ce else s
        | none => s) := by
  unfold populateCachedLinks
  rw [List.getElem?_map, hs]
  rfl

/-- A fold of populateCachedLinks over providers none of which reports the
stream at position i as cached leaves that position untouched. -/
theorem fold_getElem_pass (fname : Stream → String) (config : Config) (s : Stream) :
    ∀ (mrs : List MochSuccess) (streams : List Stream) (i : Nat),
    streams[i]? = some s → (∀ m ∈ mrs, reportsCached m s = false) →
    (mrs.foldl
      (fun resultStreams mochResult => populateCachedLinks fname resultStreams mochResult config)
      streams)[i]? = some s := by
  intro mrs
  induction mrs with
  | nil =>
    intro streams i hs _
    simpa using hs
  | cons m ms ih =>
    intro streams i hs hall
    rw [List.foldl_cons]
    refine ih _ i ?_ (fun x hx => hall x (List.mem_cons_of_mem m hx))
    rw [populateCachedLinks_getElem fname config m streams i s hs]
    have hm := hall m (List.mem_cons_self m ms)
    cases hce : hashLookup s m.mochStreams with
    | none => rfl
    | some ce =>
      have hcf : ce.cached = false := by
        unfold reportsCached at hm
        rw [hce] at hm
        simpa using hm
      simp [hcf]

/-- A stream without an infoHash property (the shape of every replacement
entry) survives any further fold of populateCachedLinks untouched. -/
theorem fold_getElem_noHash (fname : Stream → String) (config : Config)
    (t : Stream) (hh : t.infoHash = none) :
    ∀ (mrs : List MochSuccess) (streams : List Stream) (i : Nat),
    streams[i]? = some t →
    (mrs.foldl
      (fun resultStreams mochResult => populateCachedLinks fname resultStreams mochResult config)
      streams)[i]? = some t := by
  intro mrs
  induction mrs with
  | nil =>
    intro streams i hs
    simpa using hs
  | cons m ms ih =>
    intro streams i hs
    rw [List.foldl_cons]
    refine ih _ i ?_
    rw [populateCachedLinks_getElem fname config m streams i t hs]
    have hnone : hashLookup t m.mochStreams = none := by
      simp [hashLookup, hh]
    simp [hnone]

/-- The per-provider step keeps the provider descriptor it was given. -/
theorem mochCall_moch (oracle : String → String → Except MochError MochStreams)
    (blacklist : List String) (moch : Moch) (token : String) :
    (mochCall oracle blacklist moch token).moch = moch := by
  unfold mochCall
  split
  · rfl
  · split <;> rfl

/-- The provider descriptors of the collected results are exactly the config
keys resolved through the registry, in config key insertion order. -/
theorem resultsInConfigOrder_mochs (oracle : String → String → Except MochError MochStreams)
    (blacklist : List String) : ∀ l : List (String × String),
    (l.filterMap (fun kv =>
      (findMoch kv.fst).map (fun moch => mochCall oracle blacklist moch kv.snd))).map
        (fun r => r.moch)
      = l.filterMap (fun kv => findMoch kv.fst) := by
  intro l
  induction l with
  | nil => rfl
  | cons kv tl ih =>
    rw [List.filterMap_cons, List.filterMap_cons]
    cases hf : findMoch kv.fst with
    | none => simpa [hf] using ih
    | some m => simp [hf, mochCall_moch, ih]

/-- The error classifier emits a placeholder exactly for the classifiable
errors, for a result whose descriptor is registered. -/
theorem errorStreamResponse_isSome (r : MochResult) (config : Config)
    (hreg : findMoch r.moch.key = some r.moch) :
    (errorStreamResponse r.moch.key (errorOf r.outcome) config).isSome
      = classifiable r.outcome := by
  rcases r with ⟨moch, outcome⟩
  cases outcome with
  | success ms => simp [errorStreamResponse, errorOf, classifiable, hreg]
  | failure e => cases e <;> simp [errorStreamResponse, errorOf, classifiable, hreg]

/-- The classified placeholder list has one entry per classifiable failure. -/
theorem errorResults_length (config : Config) : ∀ results : List MochResult,
    (∀ r ∈ results, findMoch r.moch.key = some r.moch) →
    (results.filterMap
      (fun r => errorStreamResponse r.moch.key (errorOf r.outcome) config)).length
      = results.countP (fun r => classifiable r.outcome) := by
  intro results hreg
  induction results with
  | nil => rfl
  | cons r rs ih =>
    have h1 := errorStreamResponse_isSome r config (hreg r (List.mem_cons_self r rs))
    have ih2 := ih (fun x hx => hreg x (List.mem_cons_of_mem r hx))
    rw [List.filterMap_cons, List.countP_cons]
    cases hopt : errorStreamResponse r.moch.key (errorOf r.outcome) config with
    | none =>
      rw [hopt] at h1
      simp only [Option.isSome_none] at h1
      simp [← h1, ih2]
    | some b =>
      rw [hopt] at h1
      simp only [Option.isSome_some] at h1
      simp [← h1, ih2]

/- Claim theorems. -/

/-- Claim C3: if the candidate list is empty or no registered provider has a
truthy credential in the config, applyMochs returns the input unchanged, for
every provider oracle (hence without any provider call). -/
theorem applyMochs_identity (oracle : String → String → Except MochError MochStreams)
    (blacklist : List String) (fname : Stream → String)
    (streams : List Stream) (config : Config)
    (h : streams = [] ∨ hasMochConfigured config = none) :
    applyMochs oracle blacklist fname streams config = Except.ok streams := by
  rcases h with h | h
  · subst h; rfl
  · simp [applyMochs, h]
    rfl

/-- Witness for C3: a non-empty candidate list with an unconfigured config is
returned unchanged. -/
theorem applyMochs_identity_witness :
    ([c1Stream] = [] ∨ hasMochConfigured emptyConfig = none) ∧
    applyMochs c1Oracle [] testFname [c1Stream] emptyConfig = Except.ok [c1Stream] :=
  ⟨Or.inr (by decide),
   applyMochs_identity c1Oracle [] testFname [c1Stream] emptyConfig (Or.inr (by decide))⟩

/-- Claim C1 counterexample: with both realdebrid and premiumize reporting the
same hash "abc" as cached, the aggregated entry carries realdebrid's branding
("[RD+]"), the provider that comes FIRST, not premiumize's ("[PM+]"), the
provider later in registry declaration order; moreover reordering the config
entries flips the winner, so the fold order is the config key order, not the
registry declaration order. -/
theorem applyMochs_registry_order_counterexample :
    applyMochs c1Oracle [] testFname [c1Stream] c1Config =
      Except.ok [{ infoHash := none, name := "[RD+] Movie", title := "👤 5 📦 1GB",
                   url := some "http://host/realdebrid/realdebrid-url/file.mp4",
                   behaviorHints := none }] ∧
    applyMochs c1Oracle [] testFname [c1Stream] c1ConfigRev =
      Except.ok [{ infoHash := none, name := "[PM+] Movie", title := "👤 5 📦 1GB",
                   url := some "http://host/premiumize/premiumize-url/file.mp4",
                   behaviorHints := none }] ∧
    ("[RD+] Movie" : String) ≠ "[PM+] Movie" := by
  refine ⟨by decide, by decide, by decide⟩

/-- Claim C1 amended: (1) outside its fast path, applyMochs hands
processMochResults the per-provider results built in the config's key
insertion order restricted to registered providers, (2) whose provider
descriptors are exactly the config keys resolved through the registry in that
order, and (3) in the cached-merge fold, for every candidate list, every
position, and every split of the fold order into providers that do not report
the candidate cached followed by the first provider that does, the output at
that position is that first provider's replacement — all later providers
(cached or not) cannot override it, because the replacement drops the
identifier. All parts are functions of their inputs, hence deterministic
across repeated runs. -/
theorem applyMochs_config_order_first_wins
    (oracle : String → String → Except MochError MochStreams)
    (blacklist : List String) (fname : Stream → String) (config : Config) :
    (∀ streams : List Stream, streams ≠ [] → hasMochConfigured config ≠ none →
      applyMochs oracle blacklist fname streams config =
        processMochResults fname streams config
          (resultsInConfigOrder oracle blacklist config)) ∧
    ((resultsInConfigOrder oracle blacklist config).map (fun r => r.moch) =
      config.entries.filterMap (fun kv => findMoch kv.fst)) ∧
    (∀ (streams : List Stream) (i : Nat) (s : Stream)
        (pre : List MochSuccess) (mr : MochSuccess) (post : List MochSuccess)
        (ce : CachedEntry),
      streams[i]? = some s →
      (∀ m ∈ pre, reportsCached m s = false) →
      hashLookup s mr.mochStreams = some ce → ce.cached = true →
      ((pre ++ mr :: post).foldl
        (fun resultStreams mochResult =>
          populateCachedLinks fname resultStreams mochResult config)
        streams)[i]? = some (cachedReplacement fname config mr s ce)) := by
  refine ⟨?_, ?_, ?_⟩
  · intro streams h1 h2
    have e1 : streams.isEmpty = false := by
      cases streams with
      | nil => exact absurd rfl h1
      | cons a as => rfl
    have e2 : (hasMochConfigured config).isNone = false := by
      cases hc : hasMochConfigured config with
      | none => exact absurd hc h2
      | some k => rfl
    simp [applyMochs, resultsInConfigOrder, e1, e2]
  · exact resultsInConfigOrder_mochs oracle blacklist config.entries
  · intro streams i s pre mr post ce hs hpre hce hc
    rw [List.foldl_append, List.foldl_cons]
    have h1 : (pre.foldl
        (fun resultStreams mochResult =>
          populateCachedLinks fname resultStreams mochResult config)
        streams)[i]? = some s :=
      fold_getElem_pass fname config s pre streams i hs hpre
    have h2 : (populateCachedLinks fname
        (pre.foldl
          (fun resultStreams mochResult =>
            populateCachedLinks fname resultStreams mochResult config)
          streams) mr config)[i]? = some (cachedReplacement fname config mr s ce) := by
      rw [populateCachedLinks_getElem fname config mr _ i s h1]
      simp [hce, hc]
    exact fold_getElem_noHash fname config _ rfl post _ i h2

/-- Witness for the amended C1: with premiumize knowing the hash uncached
before it, realdebrid — the first provider reporting "abc" cached — wins at
position 1 of a two-candidate list, and a later alldebrid cached report
cannot override; the applyMochs run processes the config-ordered results. -/
theorem applyMochs_config_order_first_wins_witness :
    ([c1Stream] ≠ ([] : List Stream)) ∧ (hasMochConfigured c1Config ≠ none) ∧
    applyMochs c1Oracle [] testFname [c1Stream] c1Config =
      processMochResults testFname [c1Stream] c1Config
        (resultsInConfigOrder c1Oracle [] c1Config) ∧
    c1Streams[1]? = some c1Stream ∧
    (∀ m ∈ c1Pre, reportsCached m c1Stream = false) ∧
    hashLookup c1Stream c1Mr.mochStreams = some c4Entry ∧ c4Entry.cached = true ∧
    ((c1Pre ++ c1Mr :: c1Post).foldl
      (fun resultStreams mochResult =>
        populateCachedLinks testFname resultStreams mochResult c1Config)
      c1Streams)[1]? = some (cachedReplacement testFname c1Config c1Mr c1Stream c4Entry) :=
  ⟨by decide, by decide,
   (applyMochs_config_order_first_wins c1Oracle [] testFname c1Config).1
     [c1Stream] (by decide) (by decide),
   by decide, by decide, by decide, rfl,
   (applyMochs_config_order_first_wins c1Oracle [] testFname c1Config).2.2
     c1Streams 1 c1Stream c1Pre c1Mr c1Post c4Entry (by decide) (by decide) (by decide) rfl⟩

/-- Claim C2: when any collected provider result carries a classifiable error
(BadTokenError or AccessDeniedError), processMochResults returns exactly the
classified placeholders — one per classifiably failing provider — and none of
the original or merged streams; unclassifiable failures contribute no
placeholder. -/
theorem processMochResults_error_shortcircuit (fname : Stream → String)
    (streams : List Stream) (config : Config) (results : List MochResult)
    (hreg : ∀ r ∈ results, findMoch r.moch.key = some r.moch)
    (hex : ∃ r ∈ results, classifiable r.outcome = true) :
    processMochResults fname streams config results =
      Except.ok (results.filterMap
        (fun r => errorStreamResponse r.moch.key (errorOf r.outcome) config)) ∧
    (results.filterMap
        (fun r => errorStreamResponse r.moch.key (errorOf r.outcome) config)).length
      = results.countP (fun r => classifiable r.outcome) := by
  have hne : results.filterMap
      (fun r => errorStreamResponse r.moch.key (errorOf r.outcome) config) ≠ [] := by
    obtain ⟨r, hr, hcl⟩ := hex
    have h1 := errorStreamResponse_isSome r config (hreg r hr)
    rw [hcl] at h1
    obtain ⟨b, hb⟩ := Option.isSome_iff_exists.mp h1
    intro hnil
    have hmem : b ∈ results.filterMap
        (fun r => errorStreamResponse r.moch.key (errorOf r.outcome) config) :=
      List.mem_filterMap.mpr ⟨r, hr, hb⟩
    rw [hnil] at hmem
    exact (List.not_mem_nil b) hmem
  constructor
  · have hE : (results.filterMap
        (fun r => errorStreamResponse r.moch.key (errorOf r.outcome) config)).isEmpty = false := by
      cases hl : results.filterMap
          (fun r => errorStreamResponse r.moch.key (errorOf r.outcome) config) with
      | nil => exact absurd hl hne
      | cons a as => rfl
    simp [processMochResults, hE]
    rfl
  · exact errorResults_length config results hreg

/-- Witness for C2: realdebrid fails with BadTokenError, premiumize succeeds,
alldebrid fails unclassifiably — the output is exactly the single realdebrid
placeholder. -/
theorem processMochResults_error_shortcircuit_witness :
    (∀ r ∈ c2Results, findMoch r.moch.key = some r.moch) ∧
    (∃ r ∈ c2Results, classifiable r.outcome = true) ∧
    (processMochResults testFname [c1Stream] c5Config c2Results =
      Except.ok (c2Results.filterMap
        (fun r => errorStreamResponse r.moch.key (errorOf r.outcome) c5Config)) ∧
    (c2Results.filterMap
        (fun r => errorStreamResponse r.moch.key (errorOf r.outcome) c5Config)).length
      = c2Results.countP (fun r => classifiable r.outcome)) :=
  ⟨by decide, by decide,
   processMochResults_error_shortcircuit testFname [c1Stream] c5Config c2Results
     (by decide) (by decide)⟩

/-- Claim C4: populateCachedLinks preserves the list length; the candidate at
any position whose infoHash the provider marks cached is replaced by the
provider-branded entry (short-name prefix, host-prefixed resolve url, title
and behaviorHints preserved), and a candidate with no cached entry under its
infoHash (missing or not marked cached) passes through unchanged. -/
theorem populateCachedLinks_pointwise (fname : Stream → String) (config : Config)
    (mr : MochSuccess) (streams : List Stream) (i : Nat) (s : Stream)
    (hs : streams[i]? = some s) :
    (populateCachedLinks fname streams mr config).length = streams.length ∧
    (∀ ce, hashLookup s mr.mochStreams = some ce → ce.cached = true →
      (populateCachedLinks fname streams mr config)[i]? =
        some { infoHash := none
               name := "[" ++ mr.moch.shortName ++ "+] " ++ s.name
               title := s.title
               url := some (config.host ++ "/" ++ mr.moch.key ++ "/" ++ jsStr ce.url
                 ++ "/" ++ fname s)
               behaviorHints := s.behaviorHints }) ∧
    ((∀ ce, hashLookup s mr.mochStreams = some ce → ce.cached = false) →
      (populateCachedLinks fname streams mr config)[i]? = some s) := by
  refine ⟨by simp [populateCachedLinks], ?_, ?_⟩
  · intro ce hce hcached
    unfold populateCachedLinks
    rw [List.getElem?_map, hs]
    simp [Option.map_some', hce, hcached, cachedReplacement]
  · intro hmiss
    unfold populateCachedLinks
    rw [List.getElem?_map, hs]
    cases hce : hashLookup s mr.mochStreams with
    | none => simp [Option.map_some', hce]
    | some ce => simp [Option.map_some', hce, hmiss ce hce]

/-- Witness for C4: the cached candidate is rebranded, the other candidate
passes through. -/
theorem populateCachedLinks_pointwise_witness :
    c4Streams[0]? = some c4Hit ∧
    hashLookup c4Hit c4Mr.mochStreams = some c4Entry ∧ c4Entry.cached = true ∧
    (populateCachedLinks testFname c4Streams c4Mr c1Config)[0]? =
      some { infoHash := none
             name := "[" ++ c4Mr.moch.shortName ++ "+] " ++ c4Hit.name
             title := c4Hit.title
             url := some (c1Config.host ++ "/" ++ c4Mr.moch.key ++ "/" ++ jsStr c4Entry.url
               ++ "/" ++ testFname c4Hit)
             behaviorHints := c4Hit.behaviorHints } :=
  ⟨rfl, by decide, rfl,
   (populateCachedLinks_pointwise testFname c1Config c4Mr c4Streams 0 c4Hit rfl).2.1
     c4Entry (by decide) rfl⟩

/-- Claim C5 (code bug evaluation): with one configured provider whose
cached-lookup map has NO entry for the uncached healthy candidate "abc",
populateDownloadLinks — and hence applyMochs — aborts with the modelled
TypeError (moch.js line 187 reads `cachedEntry.url` without optional
chaining) instead of appending a "[RD download] Movie" entry. -/
theorem populateDownloadLinks_missing_entry_throws :
    populateDownloadLinks testFname [c5Stream] [⟨realdebridMoch, []⟩] c5Config
      = Except.error () ∧
    applyMochs (fun _ _ => Except.ok []) [] testFname [c5Stream] c5Config
      = Except.error () := by
  refine ⟨by decide, by decide⟩

/-- Claim C6 counterexample: a pool of six candidates all flagged zero-peer;
for its (non-4k) first candidate the source policy (as invoked with the
seeded sublist) judges it healthy because the SEEDED sublist is empty, while
the claimed policy over the TOTAL pool of six entries judges it unhealthy. -/
theorem isHealthy_pool_counterexample :
    isHealthyStreamForDebrid (seededFilter c6Pool) c6s = true ∧
    isHealthySpecPolicy c6Pool c6s = false ∧
    c6Pool.length = 6 := by
  refine ⟨by decide, by decide, by decide⟩

/-- Claim C6 amended: the candidate is judged healthy exactly when it is not
flagged zero-peer, OR its name marks 4k quality, OR the candidates of the pool
NOT flagged zero-peer number 5 or fewer (the call site passes the seeded
sublist, so the size threshold counts seeded candidates only). -/
theorem isHealthy_seeded_pool (pool : List Stream) (s : Stream) :
    isHealthyStreamForDebrid (seededFilter pool) s = true ↔
      (jsIncludes s.title "👤 0" = false ∨ jsIncludes s.name "4k" = true ∨
       (pool.filter (fun t => !jsIncludes t.title "👤 0")).length ≤ 5) := by
  simp [isHealthyStreamForDebrid, seededFilter, Bool.or_eq_true, Bool.not_eq_true', or_assoc]

/-- Claim C7: a credential shorter than MIN_API_KEY_SYMBOLS (15), or with its
`providerKey|credential` pair in the blacklist, makes the per-provider step of
applyMochs return the BadTokenError outcome for EVERY oracle — so the provider
network operation is never consulted — and the classifier emits its error
placeholder for that outcome. -/
theorem invalidToken_shortcircuit (blacklist : List String) (moch : Moch)
    (token : String) (config : Config)
    (h : token.length < MIN_API_KEY_SYMBOLS ∨
      blacklist.contains (moch.key ++ "|" ++ token) = true) :
    (∀ oracle, mochCall oracle blacklist moch token = ⟨moch, .failure .badToken⟩) ∧
    (findMoch moch.key = some moch →
      (errorStreamResponse moch.key (some .badToken) config).isSome = true) := by
  have hinv : isInvalidToken blacklist token moch.key = true := by
    rcases h with h | h
    · simp [isInvalidToken, h]
    · have hm : moch.key ++ "|" ++ token ∈ blacklist := by simpa using h
      simp [isInvalidToken, hm]
  constructor
  · intro oracle
    simp [mochCall, hinv]
  · intro hreg
    simp [errorStreamResponse, hreg]

/-- Witness for C7: the five-symbol credential "short" short-circuits the
realdebrid call for a concrete oracle. -/
theorem invalidToken_shortcircuit_witness :
    ("short".length < MIN_API_KEY_SYMBOLS ∨
      ([] : List String).contains (realdebridMoch.key ++ "|" ++ "short") = true) ∧
    mochCall (fun _ _ => Except.ok []) [] realdebridMoch "short"
      = ⟨realdebridMoch, .failure .badToken⟩ :=
  ⟨Or.inl (by decide),
   (invalidToken_shortcircuit [] realdebridMoch "short" emptyConfig
     (Or.inl (by decide))).1 (fun _ _ => Except.ok [])⟩

/-- Claim C8: when the wrapped provider invocation times out or fails, the
resolve method returns the FAILED_UNEXPECTED sentinel prefixed with the
caller-supplied host (never an unhandled error); a completed non-sentinel url
is returned unchanged; and the timeout constant is two minutes. -/
theorem resolve_timeout_sentinel (host : String) :
    (∀ outcome : ResolveOutcome,
      outcome = ResolveOutcome.timedOut ∨ outcome = ResolveOutcome.failed →
      resolveMethod host outcome = host ++ "/" ++ FAILED_UNEXPECTED) ∧
    (∀ u, isStaticUrl u = false → resolveMethod host (ResolveOutcome.completed u) = u) ∧
    RESOLVE_TIMEOUT = 2 * 60 * 1000 := by
  have hstat : isStaticUrl FAILED_UNEXPECTED = true := by decide
  refine ⟨?_, ?_, rfl⟩
  · intro o ho
    rcases ho with rfl | rfl <;> simp [resolveMethod, hstat]
  · intro u hu
    simp [resolveMethod, hu]

/-- Witness for C8: a timed-out resolve yields the host-prefixed sentinel and
a plain url passes through. -/
theorem resolve_timeout_sentinel_witness :
    (ResolveOutcome.timedOut = ResolveOutcome.timedOut ∨
      ResolveOutcome.timedOut = ResolveOutcome.failed) ∧
    resolveMethod "http://h" ResolveOutcome.timedOut = "http://h" ++ "/" ++ FAILED_UNEXPECTED ∧
    isStaticUrl "http://video" = false ∧
    resolveMethod "http://h" (ResolveOutcome.completed "http://video") = "http://video" :=
  ⟨Or.inl rfl,
   (resolve_timeout_sentinel "http://h").1 ResolveOutcome.timedOut (Or.inl rfl),
   by decide,
   (resolve_timeout_sentinel "http://h").2.1 "http://video" (by decide)⟩

/-- Claim C10: the promise returned by resolve settles through the queue
callback as `result ? resolve(result) : reject(error)`: a falsy (empty-string)
fulfilled result rejects with the queue's error value `false`, and only a
truthy result fulfills. -/
theorem unrestrictQueueSettle_truthiness (r : String) :
    (r = "" → unrestrictQueueSettle r = Except.error false) ∧
    (r ≠ "" → unrestrictQueueSettle r = Except.ok r) := by
  constructor
  · intro h
    subst h
    rfl
  · intro h
    simp [unrestrictQueueSettle, h]

/-- Witness for C10: the empty-string result rejects with `false`; "x"
fulfills. -/
theorem unrestrictQueueSettle_truthiness_witness :
    ("" : String) = "" ∧ unrestrictQueueSettle "" = Except.error false ∧
    ("x" : String) ≠ "" ∧ unrestrictQueueSettle "x" = Except.ok "x" :=
  ⟨rfl, (unrestrictQueueSettle_truthiness "").1 rfl, by decide,
   (unrestrictQueueSettle_truthiness "x").2 (by decide)⟩

end Torrentio
